import Mathlib

/-!
# Verification of the Canny edge-detection core

The repository's notebook (`3.2 Operators based on second derivative &
Canny algorithm.ipynb`) describes the Canny pipeline (gradient computation,
non-maximum suppression, double-threshold hysteresis) in its section 3.2.3
but leaves the implementation to the external library call
`cv2.Canny(None, None, None)`; the assignment functions in the notebook are
`None`-placeholder stubs.  The algorithmic core is therefore modelled here
from the specification's words, while the stub functions that do exist in
the notebook (`gaussian_smoothing`, `laplace_testing`, `canny_testing`) are
embedded faithfully from their source.
-/

namespace Canny

/-- Modelled from the spec: a `Raster` is a 2D grid of scalar samples with
fixed height `H` and width `W`, addressable by integer coordinates `(i, j)`
with `0 ≤ i < H`, `0 ≤ j < W`.  The payload `data` is total on `ℕ × ℕ`;
only indices inside the grid are meaningful. -/
structure Raster (α : Type) where
  H : ℕ
  W : ℕ
  data : ℕ → ℕ → α

/-- Modelled from the spec: the 4-valued direction-sector classification
into the `{0°, 45°, 90°, 135°}` bins. -/
inductive Sector : Type where
  | s0 : Sector
  | s45 : Sector
  | s90 : Sector
  | s135 : Sector
deriving DecidableEq

/-- Modelled from the spec: the two neighbor pixels lying along a sector's
axis: sector 0° → `(i, j-1)` and `(i, j+1)`; sector 90° → `(i-1, j)` and
`(i+1, j)`; the diagonal sectors select the corresponding diagonal
neighbor pairs. -/
def sectorNeighbors (s : Sector) (i j : ℕ) : (ℕ × ℕ) × (ℕ × ℕ) :=
  match s with
  | Sector.s0 => ((i, j - 1), (i, j + 1))
  | Sector.s90 => ((i - 1, j), (i + 1, j))
  | Sector.s45 => ((i - 1, j + 1), (i + 1, j - 1))
  | Sector.s135 => ((i - 1, j - 1), (i + 1, j + 1))

/-- An interior pixel of a raster: `1 ≤ i < H-1` and `1 ≤ j < W-1`. -/
def Raster.interior {α : Type} (M : Raster α) (i j : ℕ) : Prop :=
  1 ≤ i ∧ i < M.H - 1 ∧ 1 ≤ j ∧ j < M.W - 1

instance {α : Type} (M : Raster α) (i j : ℕ) : Decidable (M.interior i j) :=
  inferInstanceAs (Decidable (_ ∧ _ ∧ _ ∧ _))

/-- Modelled from the spec: non-maximum suppression.  For every interior
pixel, the two neighbors selected by the pixel's direction sector are
compared with the pixel: `M'(i,j) = M(i,j)` if `M(i,j)` is `≥` both
selected neighbor magnitudes, else `0`.  Border pixels (the outermost
ring) are always set to `0`. -/
def suppress {α : Type} [LinearOrder α] [Zero α]
    (M : Raster α) (D : Raster Sector) : Raster α :=
  ⟨M.H, M.W, fun i j =>
    if M.interior i j ∧
        M.data (sectorNeighbors (D.data i j) i j).1.1
          (sectorNeighbors (D.data i j) i j).1.2 ≤ M.data i j ∧
        M.data (sectorNeighbors (D.data i j) i j).2.1
          (sectorNeighbors (D.data i j) i j).2.2 ≤ M.data i j
    then M.data i j else 0⟩

/-- A pixel `p = (i, j)` lies inside the grid of raster `M`. -/
def inGrid {α : Type} (M : Raster α) (p : ℕ × ℕ) : Prop :=
  p.1 < M.H ∧ p.2 < M.W

instance {α : Type} (M : Raster α) (p : ℕ × ℕ) : Decidable (inGrid M p) :=
  inferInstanceAs (Decidable (_ ∧ _))

/-- Modelled from the spec: `p` is STRONG when `M'(p) ≥ T_high`. -/
def strongAt {α : Type} [LinearOrder α] (M : Raster α) (thi : α)
    (p : ℕ × ℕ) : Prop :=
  thi ≤ M.data p.1 p.2

/-- Modelled from the spec: `p` is WEAK when `T_low ≤ M'(p) < T_high`. -/
def weakAt {α : Type} [LinearOrder α] (M : Raster α) (tlo thi : α)
    (p : ℕ × ℕ) : Prop :=
  tlo ≤ M.data p.1 p.2 ∧ M.data p.1 p.2 < thi

/-- 8-connectivity: `q` is one of the 8 immediate neighbors of `p`
(distinct pixels whose coordinates differ by at most one). -/
def adj8 (p q : ℕ × ℕ) : Prop :=
  p ≠ q ∧ p.1 ≤ q.1 + 1 ∧ q.1 ≤ p.1 + 1 ∧ p.2 ≤ q.2 + 1 ∧ q.2 ≤ p.2 + 1

/-- One linking step of the hysteresis flood: move to an adjacent in-grid
WEAK pixel. -/
def weakStep {α : Type} [LinearOrder α] (M : Raster α) (tlo thi : α)
    (p q : ℕ × ℕ) : Prop :=
  adj8 p q ∧ inGrid M q ∧ weakAt M tlo thi q

/-- Modelled from the spec: `p` is promoted by the hysteresis linking pass
when some in-grid STRONG pixel reaches it through a (possibly empty) path
of in-grid WEAK pixels under 8-connectivity. -/
def promoted {α : Type} [LinearOrder α] (M : Raster α) (tlo thi : α)
    (p : ℕ × ℕ) : Prop :=
  ∃ q : ℕ × ℕ, inGrid M q ∧ strongAt M thi q ∧
    Relation.ReflTransGen (weakStep M tlo thi) q p

/-- Modelled from the spec: the hysteresis linker's binary Edge Raster,
true at every in-grid pixel promoted from a STRONG seed. -/
def edges {α : Type} [LinearOrder α] (M : Raster α) (tlo thi : α) :
    Raster Prop :=
  ⟨M.H, M.W, fun i j => inGrid M (i, j) ∧ promoted M tlo thi (i, j)⟩

/-- Modelled from the spec: replicate-border index clipping into
`[0, n-1]`. -/
def clip (n : ℕ) (k : ℤ) : ℕ :=
  (max 0 (min k ((n : ℤ) - 1))).toNat

/-- Modelled from the spec: replicate-border fetch from a raster at a
possibly out-of-range integer coordinate. -/
def rep (I : Raster ℝ) (i j : ℤ) : ℝ :=
  I.data (clip I.H i) (clip I.W j)

/-- Modelled from the spec: horizontal derivative response `Gx` of the
classical 3×3 kernel (`[-1,0,1]` columns weighted `[1,2,1]` across rows)
convolved with the raster under replicate-border extension. -/
def gradX (I : Raster ℝ) (i j : ℕ) : ℝ :=
  (rep I ((i : ℤ) - 1) ((j : ℤ) + 1) + 2 * rep I (i : ℤ) ((j : ℤ) + 1)
      + rep I ((i : ℤ) + 1) ((j : ℤ) + 1))
    - (rep I ((i : ℤ) - 1) ((j : ℤ) - 1) + 2 * rep I (i : ℤ) ((j : ℤ) - 1)
      + rep I ((i : ℤ) + 1) ((j : ℤ) - 1))

/-- Modelled from the spec: vertical derivative response `Gy` of the
classical 3×3 kernel convolved with the raster under replicate-border
extension. -/
def gradY (I : Raster ℝ) (i j : ℕ) : ℝ :=
  (rep I ((i : ℤ) + 1) ((j : ℤ) - 1) + 2 * rep I ((i : ℤ) + 1) (j : ℤ)
      + rep I ((i : ℤ) + 1) ((j : ℤ) + 1))
    - (rep I ((i : ℤ) - 1) ((j : ℤ) - 1) + 2 * rep I ((i : ℤ) - 1) (j : ℤ)
      + rep I ((i : ℤ) - 1) ((j : ℤ) + 1))

/-- Modelled from the spec: the gradient magnitude raster,
`sqrt (Gx² + Gy²)` at every pixel (the spec's L2-norm default). -/
noncomputable def magnitude (I : Raster ℝ) : Raster ℝ :=
  ⟨I.H, I.W, fun i j => Real.sqrt ((gradX I i j) ^ 2 + (gradY I i j) ^ 2)⟩

/-- Modelled from the spec: the direction-sector classification of a
gradient sample.  The direction `atan2(Gy, Gx)` folded into `[0, π)` falls
into the 45°-wide bin centred on 0°, 45°, 90° or 135°; equivalently, with
`t = tan 22.5° = √2 - 1`: the 0° bin when `|Gy| < t·|Gx|`, the 90° bin when
`|Gx| < t·|Gy|`, and otherwise the diagonal bin selected by the sign of
`Gx·Gy`. -/
noncomputable def sectorOf (gx gy : ℝ) : Sector :=
  if |gy| < (Real.sqrt 2 - 1) * |gx| then Sector.s0
  else if |gx| < (Real.sqrt 2 - 1) * |gy| then Sector.s90
  else if 0 ≤ gx * gy then Sector.s45 else Sector.s135

/-- Modelled from the spec: the quantized-direction raster produced by the
Gradient Computer. -/
noncomputable def sectors (I : Raster ℝ) : Raster Sector :=
  ⟨I.H, I.W, fun i j => sectorOf (gradX I i j) (gradY I i j)⟩

/-- Modelled from the spec: the two typed configuration errors. -/
inductive ConfigError : Type where
  | invalidKernelSize : ConfigError
  | invalidThresholds : ConfigError
deriving DecidableEq

/-- Modelled from the spec: the whole pipeline with eager configuration
validation.  It fails with `invalidKernelSize` if the derivative kernel
size is even or less than 3, then with `invalidThresholds` if
`T_low > T_high` or either threshold is negative, and otherwise runs
gradient computation, non-maximum suppression and hysteresis linking.
(The spec leaves the odd-size kernel generalization open; the classical
3×3 kernel is used for the gradient responses.) -/
noncomputable def canny (I : Raster ℝ) (ksize : ℕ) (tlo thi : ℝ) :
    Except ConfigError (Raster Prop) :=
  if ksize % 2 = 0 ∨ ksize < 3 then Except.error ConfigError.invalidKernelSize
  else if thi < tlo ∨ tlo < 0 ∨ thi < 0 then
    Except.error ConfigError.invalidThresholds
  else Except.ok (edges (suppress (magnitude I) (sectors I)) tlo thi)

/-- The spec's concrete scenario raster: a uniform-intensity 10×10 grid of
constant value 128. -/
noncomputable def uniform10 : Raster ℝ := ⟨10, 10, fun _ _ => 128⟩

/-- A concrete 3×3 constant rational raster used to instantiate the
general theorems. -/
def M1 : Raster ℚ := ⟨3, 3, fun _ _ => 5⟩

/-- A concrete 3×3 direction raster (all sectors 0°). -/
def D0 : Raster Sector := ⟨3, 3, fun _ _ => Sector.s0⟩

/-- A concrete 3×3 all-zero real raster. -/
def Z3 : Raster ℝ := ⟨3, 3, fun _ _ => 0⟩

end Canny

namespace Notebook

/-- The runtime errors Python raises when a library call receives `None`
(or an object of the wrong type) where an array or number is required. -/
inductive PyError : Type where
  | typeError : PyError
  | valueError : PyError
  | attributeError : PyError
deriving DecidableEq

/-- `range(-w, w+1)`: requires `w` to be an integer; `-None` raises a
`TypeError`. -/
def pyInt : Option ℤ → Except PyError ℤ
  | some w => Except.ok w
  | none => Except.error PyError.typeError

/-- `scipy.signal.convolve2d`: both arguments must be 2-D arrays; a `None`
argument raises a `ValueError` (its inputs must both be 2-D arrays).  The
behaviour on real arrays is the library's, abstracted as `impl`. -/
def convolve2d {Mat : Type} (impl : Mat → Mat → Mat) :
    Option Mat → Option Mat → Except PyError Mat
  | some a, some b => Except.ok (impl a b)
  | _, _ => Except.error PyError.valueError

/-- `cv2.filter2D(src, ddepth, kernel)`: a `None` `src` or kernel raises a
`TypeError`. -/
def filter2D {Mat : Type} (impl : Mat → ℤ → Mat → Mat) :
    Option Mat → Option ℤ → Option Mat → Except PyError Mat
  | some s, some d, some k => Except.ok (impl s d k)
  | _, _, _ => Except.error PyError.typeError

/-- `image.shape`: attribute access on `None` raises an
`AttributeError`. -/
def pyShape {Mat : Type} : Option Mat → Except PyError (ℕ × ℕ)
  | some _ => Except.ok (0, 0)
  | none => Except.error PyError.attributeError

/-- `cv2.normalize(src, dst, alpha, beta, NORM_MINMAX)`: a `None` `src`,
`alpha` or `beta` raises a `TypeError` (`dst` may legitimately be
`None`). -/
def cvNormalize {Mat : Type} (impl : Mat → ℚ → ℚ → Mat) :
    Option Mat → Option Mat → Option ℚ → Option ℚ → Except PyError Mat
  | some s, _, some a, some b => Except.ok (impl s a b)
  | _, _, _, _ => Except.error PyError.typeError

/-- `cv2.Laplacian(src, ddepth, ksize)`: a `None` `src` raises a
`TypeError`. -/
def cvLaplacian {Mat : Type} (impl : Mat → ℤ → ℤ → Mat) :
    Option Mat → Option ℤ → Option ℤ → Except PyError Mat
  | some s, some d, some k => Except.ok (impl s d k)
  | _, _, _ => Except.error PyError.typeError

/-- `cv2.Canny(image, threshold1, threshold2)`: a `None` image or
threshold raises a `TypeError`. -/
def cvCanny {Mat : Type} (impl : Mat → ℚ → ℚ → Mat) :
    Option Mat → Option ℚ → Option ℚ → Except PyError Mat
  | some s, some t1, some t2 => Except.ok (impl s t1 t2)
  | _, _, _ => Except.error PyError.typeError

/-- `plt.imshow(X, cmap)`: `None` image data raises a `TypeError`. -/
def imshow {Mat : Type} : Option Mat → Option Unit → Except PyError Unit
  | some _, _ => Except.ok ()
  | none, _ => Except.error PyError.typeError

/-- The notebook's ASSIGNMENT 1a stub, embedded statement by statement:
the 1D kernel is a list of `None` placeholders, and the arguments passed
to `signal.convolve2d`, `cv2.filter2D` and `cv2.normalize` are the
literal `None`. -/
def gaussian_smoothing {Mat : Type} (conv : Mat → Mat → Mat)
    (filt : Mat → ℤ → Mat → Mat) (normImpl : Mat → ℚ → ℚ → Mat)
    (image : Option Mat) (sigma : Option ℚ) (w_kernel : Option ℤ) :
    Except PyError Mat := do
  let _s := sigma
  let w ← pyInt w_kernel
  let _kernel_1D : List (Option ℚ) := List.replicate (2 * w + 1).toNat none
  let _gaussian_kernel_2D ← convolve2d conv none none
  let _smoothed_img ← filter2D filt none none none
  let _shape ← pyShape image
  let smoothed_norm ← cvNormalize normImpl none none none none
  return smoothed_norm

/-- The notebook's ASSIGNMENT 1b stub: blurs via
`gaussian_smoothing(None, None, None)`, applies
`cv2.Laplacian(None, None, ksize=None)` twice, then renders a 1×3 plot
with `plt.imshow(None, None)`; it has no return statement. -/
def laplace_testing {Mat : Type} (conv : Mat → Mat → Mat)
    (filt : Mat → ℤ → Mat → Mat) (normImpl : Mat → ℚ → ℚ → Mat)
    (lap : Mat → ℤ → ℤ → Mat) (image : Option Mat)
    (size_Laplacian : Option ℤ) (sigma : Option ℚ)
    (w_gaussian : Option ℤ) : Except PyError Unit := do
  let _args := (image, size_Laplacian, sigma, w_gaussian)
  let _blurred_img ← gaussian_smoothing conv filt normImpl none none none
  let _laplacian ← cvLaplacian lap none none none
  let _laplacian_blurred ← cvLaplacian lap none none none
  let _p1 ← imshow (none : Option Mat) none
  let _p2 ← imshow (none : Option Mat) none
  let _p3 ← imshow (none : Option Mat) none
  return ()

/-- The notebook's ASSIGNMENT 2 stub: blurs via
`gaussian_smoothing(None, None, None)`, applies
`cv2.Canny(None, None, None)` twice, then renders a 1×3 plot with
`plt.imshow(None, None)`; it has no return statement, so on successful
completion it would return Python's `None` (modelled `Except.ok ()`). -/
def canny_testing {Mat : Type} (conv : Mat → Mat → Mat)
    (filt : Mat → ℤ → Mat → Mat) (normImpl : Mat → ℚ → ℚ → Mat)
    (cny : Mat → ℚ → ℚ → Mat) (image : Option Mat)
    (lower_threshold upper_threshold : Option ℚ) (sigma : Option ℚ)
    (w_gaussian : Option ℤ) : Except PyError Unit := do
  let _args := (image, lower_threshold, upper_threshold, sigma, w_gaussian)
  let _blurred_img ← gaussian_smoothing conv filt normImpl none none none
  let _canny ← cvCanny cny none none none
  let _canny_blurred ← cvCanny cny none none none
  let _p1 ← imshow (none : Option Mat) none
  let _p2 ← imshow (none : Option Mat) none
  let _p3 ← imshow (none : Option Mat) none
  return ()

end Notebook

namespace Canny

theorem suppress_H {α : Type} [LinearOrder α] [Zero α]
    (M : Raster α) (D : Raster Sector) : (suppress M D).H = M.H := rfl

theorem suppress_W {α : Type} [LinearOrder α] [Zero α]
    (M : Raster α) (D : Raster Sector) : (suppress M D).W = M.W := rfl

/-- The value of the suppressed raster at each pixel. -/
theorem suppress_data {α : Type} [LinearOrder α] [Zero α]
    (M : Raster α) (D : Raster Sector) (i j : ℕ) :
    (suppress M D).data i j =
      if M.interior i j ∧
          M.data (sectorNeighbors (D.data i j) i j).1.1
            (sectorNeighbors (D.data i j) i j).1.2 ≤ M.data i j ∧
          M.data (sectorNeighbors (D.data i j) i j).2.1
            (sectorNeighbors (D.data i j) i j).2.2 ≤ M.data i j
      then M.data i j else 0 := rfl

/-- Every suppressed value is either the original value or zero. -/
theorem suppress_data_cases {α : Type} [LinearOrder α] [Zero α]
    (M : Raster α) (D : Raster Sector) (i j : ℕ) :
    (suppress M D).data i j = M.data i j ∨ (suppress M D).data i j = 0 := by
  rw [suppress_data]
  split
  · exact Or.inl rfl
  · exact Or.inr rfl

theorem edges_data {α : Type} [LinearOrder α] (M : Raster α) (tlo thi : α)
    (i j : ℕ) :
    (edges M tlo thi).data i j =
      (inGrid M (i, j) ∧ promoted M tlo thi (i, j)) := rfl

/-- Two rasters with the same dimensions and pointwise equal data are
equal. -/
theorem Raster.eq_of {α : Type} (A B : Raster α) (h1 : A.H = B.H)
    (h2 : A.W = B.W) (h3 : ∀ i j, A.data i j = B.data i j) : A = B := by
  cases A with
  | mk HA WA dA =>
    cases B with
    | mk HB WB dB =>
      simp only at h1 h2 h3
      subst h1
      subst h2
      have hd : dA = dB := funext fun i => funext fun j => h3 i j
      rw [hd]

/-- Suppression of an all-zero raster is all-zero. -/
theorem suppress_of_zero {α : Type} [LinearOrder α] [Zero α]
    (M : Raster α) (D : Raster Sector) (hz : ∀ i j, M.data i j = 0)
    (i j : ℕ) : (suppress M D).data i j = 0 := by
  rcases suppress_data_cases M D i j with h | h
  · rw [h, hz]
  · exact h

/-- Hysteresis on an all-zero raster with a positive upper threshold marks
no pixel. -/
theorem edges_of_zero {α : Type} [LinearOrder α] [Zero α]
    (M : Raster α) (tlo thi : α) (hz : ∀ i j, M.data i j = 0)
    (hpos : 0 < thi) (i j : ℕ) : ¬ (edges M tlo thi).data i j := by
  rintro ⟨_, q, _, hqs, _⟩
  have h0 : M.data q.1 q.2 = 0 := hz q.1 q.2
  have : thi ≤ 0 := h0 ▸ hqs
  exact absurd hpos (not_lt.mpr this)

theorem gradX_uniform10 (i j : ℕ) : gradX uniform10 i j = 0 := by
  simp only [gradX, rep, uniform10]
  ring

theorem gradY_uniform10 (i j : ℕ) : gradY uniform10 i j = 0 := by
  simp only [gradY, rep, uniform10]
  ring

theorem magnitude_uniform10 (i j : ℕ) :
    (magnitude uniform10).data i j = 0 := by
  simp only [magnitude, gradX_uniform10, gradY_uniform10]
  norm_num

/-- C2: for every magnitude raster `M`, direction raster `D` and interior
pixel `(i, j)` (`1 ≤ i < H-1`, `1 ≤ j < W-1`), non-maximum suppression
sets `M'(i,j) = M(i,j)` when `M(i,j)` is `≥` both neighbor magnitudes
selected by the pixel's direction sector, and `0` otherwise; in
particular a pixel whose magnitude exactly equals a selected neighbor's
magnitude (the other neighbor not exceeding it) is retained, never
suppressed. -/
theorem nms_interior_rule {α : Type} [LinearOrder α] [Zero α]
    (M : Raster α) (D : Raster Sector) (i j : ℕ)
    (h1 : 1 ≤ i) (h2 : i < M.H - 1) (h3 : 1 ≤ j) (h4 : j < M.W - 1) :
    ((M.data (sectorNeighbors (D.data i j) i j).1.1
        (sectorNeighbors (D.data i j) i j).1.2 ≤ M.data i j ∧
      M.data (sectorNeighbors (D.data i j) i j).2.1
        (sectorNeighbors (D.data i j) i j).2.2 ≤ M.data i j) →
      (suppress M D).data i j = M.data i j)
    ∧ (¬(M.data (sectorNeighbors (D.data i j) i j).1.1
        (sectorNeighbors (D.data i j) i j).1.2 ≤ M.data i j ∧
      M.data (sectorNeighbors (D.data i j) i j).2.1
        (sectorNeighbors (D.data i j) i j).2.2 ≤ M.data i j) →
      (suppress M D).data i j = 0)
    ∧ (M.data (sectorNeighbors (D.data i j) i j).1.1
        (sectorNeighbors (D.data i j) i j).1.2 = M.data i j →
      M.data (sectorNeighbors (D.data i j) i j).2.1
        (sectorNeighbors (D.data i j) i j).2.2 ≤ M.data i j →
      (suppress M D).data i j = M.data i j) := by
  have hint : M.interior i j := ⟨h1, h2, h3, h4⟩
  refine ⟨fun hc => ?_, fun hc => ?_, fun he hn => ?_⟩
  · rw [suppress_data, if_pos ⟨hint, hc⟩]
  · rw [suppress_data, if_neg ?_]
    rintro ⟨_, hc1, hc2⟩
    exact hc ⟨hc1, hc2⟩
  · rw [suppress_data, if_pos ⟨hint, le_of_eq he, hn⟩]

/-- The interior rule applied at the concrete raster `M1` (constant 5) at
pixel `(1, 1)`: the tie with both selected neighbors is retained. -/
theorem nms_interior_rule_witness :
    1 ≤ 1 ∧ 1 < M1.H - 1 ∧ 1 ≤ 1 ∧ 1 < M1.W - 1 ∧
    (suppress M1 D0).data 1 1 = M1.data 1 1 :=
  ⟨le_refl 1, by decide, le_refl 1, by decide,
    (nms_interior_rule M1 D0 1 1 (le_refl 1) (by decide) (le_refl 1)
      (by decide)).2.2 rfl (le_refl _)⟩

/-- C6: every border pixel (outermost ring: `i = 0`, `i = H-1`, `j = 0` or
`j = W-1`) is `0` in the suppressed raster, regardless of the input
values. -/
theorem suppress_border_zero {α : Type} [LinearOrder α] [Zero α]
    (M : Raster α) (D : Raster Sector) (i j : ℕ)
    (h : i = 0 ∨ i = M.H - 1 ∨ j = 0 ∨ j = M.W - 1) :
    (suppress M D).data i j = 0 := by
  rw [suppress_data, if_neg ?_]
  rintro ⟨⟨h1, h2, h3, h4⟩, -, -⟩
  rcases h with h | h | h | h <;> omega

/-- The border rule applied at the concrete raster `M1` at pixel
`(0, 1)`. -/
theorem suppress_border_zero_witness :
    (0 = 0 ∨ 0 = M1.H - 1 ∨ 1 = 0 ∨ 1 = M1.W - 1) ∧
    (suppress M1 D0).data 0 1 = 0 :=
  ⟨Or.inl rfl, suppress_border_zero M1 D0 0 1 (Or.inl rfl)⟩

/-- C8: every stage output has exactly the input's dimensions: the
gradient magnitude and direction rasters, the suppressed raster and the
final binary edge raster all have the input raster's height and width. -/
theorem stage_dimensions (I : Raster ℝ) (tlo thi : ℝ) :
    (magnitude I).H = I.H ∧ (magnitude I).W = I.W ∧
    (sectors I).H = I.H ∧ (sectors I).W = I.W ∧
    (suppress (magnitude I) (sectors I)).H = I.H ∧
    (suppress (magnitude I) (sectors I)).W = I.W ∧
    (edges (suppress (magnitude I) (sectors I)) tlo thi).H = I.H ∧
    (edges (suppress (magnitude I) (sectors I)) tlo thi).W = I.W :=
  ⟨rfl, rfl, rfl, rfl, rfl, rfl, rfl, rfl⟩

/-- C1: for every suppressed raster and every threshold pair with
`T_low ≤ T_high`, the hysteresis output at an in-grid pixel is true
exactly when the pixel is STRONG, or is WEAK and reachable from some
in-grid STRONG pixel via a path of in-grid WEAK pixels under
8-connectivity; in particular every STRONG pixel is in the output and no
REJECTED pixel ever is. -/
theorem hysteresis_characterization {α : Type} [LinearOrder α]
    (M : Raster α) (tlo thi : α) (hT : tlo ≤ thi) (i j : ℕ)
    (hp : inGrid M (i, j)) :
    ((edges M tlo thi).data i j ↔
      (strongAt M thi (i, j) ∨ (weakAt M tlo thi (i, j) ∧
        ∃ q, inGrid M q ∧ strongAt M thi q ∧
          Relation.ReflTransGen (weakStep M tlo thi) q (i, j))))
    ∧ (strongAt M thi (i, j) → (edges M tlo thi).data i j)
    ∧ (M.data i j < tlo → ¬ (edges M tlo thi).data i j) := by
  rw [edges_data]
  refine ⟨⟨?_, ?_⟩, ?_, ?_⟩
  · rintro ⟨-, q, hqg, hqs, hchain⟩
    rcases Relation.ReflTransGen.cases_tail hchain with heq | ⟨c, -, hstep⟩
    · exact Or.inl (heq ▸ hqs)
    · exact Or.inr ⟨hstep.2.2, q, hqg, hqs, hchain⟩
  · rintro (hs | ⟨-, q, hqg, hqs, hchain⟩)
    · exact ⟨hp, (i, j), hp, hs, Relation.ReflTransGen.refl⟩
    · exact ⟨hp, q, hqg, hqs, hchain⟩
  · intro hs
    exact ⟨hp, (i, j), hp, hs, Relation.ReflTransGen.refl⟩
  · rintro hlt ⟨-, q, hqg, hqs, hchain⟩
    rcases Relation.ReflTransGen.cases_tail hchain with heq | ⟨c, -, hstep⟩
    · have hs : strongAt M thi (i, j) := heq.symm ▸ hqs
      exact absurd (lt_of_lt_of_le hlt hT) (not_lt.mpr hs)
    · exact absurd hstep.2.2.1 (not_le.mpr hlt)

/-- The hysteresis characterization applied at the concrete raster `M1`
(constant 5) with thresholds `1 ≤ 2` at pixel `(1, 1)`: the pixel is
STRONG, so it is marked in the edge raster. -/
theorem hysteresis_characterization_witness :
    (1 : ℚ) ≤ 2 ∧ inGrid M1 (1, 1) ∧ (edges M1 1 2).data 1 1 :=
  ⟨by norm_num, by decide,
    (hysteresis_characterization M1 1 2 (by norm_num) 1 1 (by decide)).2.1
      (show (2 : ℚ) ≤ 5 by norm_num)⟩

/-- C4: non-maximum suppression is idempotent: on a magnitude raster with
non-negative in-grid samples, running suppression on its own output with
the same direction raster returns that output unchanged. -/
theorem nms_idempotent {α : Type} [LinearOrder α] [Zero α]
    (M : Raster α) (D : Raster Sector)
    (hM : ∀ i j, i < M.H → j < M.W → 0 ≤ M.data i j) :
    suppress (suppress M D) D = suppress M D := by
  refine Raster.eq_of _ _ rfl rfl fun i j => ?_
  by_cases hz : (suppress M D).data i j = 0
  · rw [suppress_data]
    split
    · exact hz.symm ▸ hz
    · exact hz.symm
  · -- the first pass retained the pixel
    have hcond : M.interior i j ∧
        M.data (sectorNeighbors (D.data i j) i j).1.1
          (sectorNeighbors (D.data i j) i j).1.2 ≤ M.data i j ∧
        M.data (sectorNeighbors (D.data i j) i j).2.1
          (sectorNeighbors (D.data i j) i j).2.2 ≤ M.data i j := by
      by_contra hc
      exact hz (by rw [suppress_data, if_neg hc])
    obtain ⟨hint, hn1, hn2⟩ := hcond
    have hval : (suppress M D).data i j = M.data i j := by
      rw [suppress_data, if_pos ⟨hint, hn1, hn2⟩]
    have hij0 : 0 ≤ M.data i j := by
      obtain ⟨g1, g2, g3, g4⟩ := hint
      exact hM i j (by omega) (by omega)
    have hc1 : (suppress M D).data (sectorNeighbors (D.data i j) i j).1.1
        (sectorNeighbors (D.data i j) i j).1.2 ≤ (suppress M D).data i j := by
      rcases suppress_data_cases M D (sectorNeighbors (D.data i j) i j).1.1
          (sectorNeighbors (D.data i j) i j).1.2 with h | h
      · rw [h, hval]; exact hn1
      · rw [h, hval]; exact hij0
    have hc2 : (suppress M D).data (sectorNeighbors (D.data i j) i j).2.1
        (sectorNeighbors (D.data i j) i j).2.2 ≤ (suppress M D).data i j := by
      rcases suppress_data_cases M D (sectorNeighbors (D.data i j) i j).2.1
          (sectorNeighbors (D.data i j) i j).2.2 with h | h
      · rw [h, hval]; exact hn2
      · rw [h, hval]; exact hij0
    rw [suppress_data (suppress M D) D i j, if_pos ⟨hint, hc1, hc2⟩]

/-- Idempotence applied at the concrete non-negative raster `M1`. -/
theorem nms_idempotent_witness :
    suppress (suppress M1 D0) D0 = suppress M1 D0 :=
  nms_idempotent M1 D0 fun i j _ _ => show (0 : ℚ) ≤ 5 by norm_num

/-- C5: the edge raster is antitone in the threshold pair: raising both
thresholds (keeping the raised pair ordered) never adds a pixel — every
pixel marked under the raised thresholds is marked under the original
ones. -/
theorem edges_antitone {α : Type} [LinearOrder α] (M : Raster α)
    (tlo thi tlo2 thi2 : α) (h1 : tlo ≤ tlo2) (h2 : thi ≤ thi2)
    (_h3 : tlo2 ≤ thi2) (i j : ℕ)
    (he : (edges M tlo2 thi2).data i j) : (edges M tlo thi).data i j := by
  obtain ⟨hg, q, hqg, hqs, hchain⟩ := he
  refine ⟨hg, ?_⟩
  have key : ∀ p : ℕ × ℕ, Relation.ReflTransGen (weakStep M tlo2 thi2) q p →
      promoted M tlo thi p := by
    intro p hch
    induction hch with
    | refl => exact ⟨q, hqg, le_trans h2 hqs, Relation.ReflTransGen.refl⟩
    | tail hqb hstep ih =>
      rename_i b c
      obtain ⟨hadj, hcg, hcw⟩ := hstep
      by_cases hs : thi ≤ M.data c.1 c.2
      · exact ⟨c, hcg, hs, Relation.ReflTransGen.refl⟩
      · obtain ⟨q2, hq2g, hq2s, hch2⟩ := ih
        exact ⟨q2, hq2g, hq2s,
          hch2.tail ⟨hadj, hcg, le_trans h1 hcw.1, not_le.mp hs⟩⟩
  exact key (i, j) hchain

/-- Threshold antitonicity applied at the concrete raster `M1` with pairs
`(1, 2)` and `(3, 4)` at pixel `(1, 1)`. -/
theorem edges_antitone_witness :
    (1 : ℚ) ≤ 3 ∧ (2 : ℚ) ≤ 4 ∧ (3 : ℚ) ≤ 4 ∧ (edges M1 1 2).data 1 1 :=
  ⟨by norm_num, by norm_num, by norm_num,
    edges_antitone M1 1 2 3 4 (by norm_num) (by norm_num) (by norm_num) 1 1
      ⟨by decide, (1, 1), by decide, show (4 : ℚ) ≤ 5 by norm_num,
        Relation.ReflTransGen.refl⟩⟩

/-- C7 (counterexample to the claim as stated): `T_low = T_high = 0` is a
valid threshold pair (`0 ≤ T_low ≤ T_high`), yet on the uniform 10×10
raster of value 128 — whose gradient magnitude is zero everywhere — the
final edge raster is not all-false: every pixel, e.g. `(1, 1)`, is STRONG
because `M' = 0 ≥ T_high = 0`. -/
theorem flat_input_zero_threshold_marks_pixel :
    (0 : ℝ) ≤ 0 ∧ (0 : ℝ) ≤ 0 ∧ (magnitude uniform10).data 1 1 = 0 ∧
    (edges (suppress (magnitude uniform10) (sectors uniform10))
      (0 : ℝ) (0 : ℝ)).data 1 1 := by
  have hz : (suppress (magnitude uniform10) (sectors uniform10)).data 1 1
      = 0 :=
    suppress_of_zero (magnitude uniform10) (sectors uniform10)
      magnitude_uniform10 1 1
  refine ⟨le_refl 0, le_refl 0, magnitude_uniform10 1 1, ?_⟩
  have hg : inGrid (suppress (magnitude uniform10) (sectors uniform10))
      (1, 1) :=
    ⟨show (1 : ℕ) < 10 by norm_num, show (1 : ℕ) < 10 by norm_num⟩
  exact ⟨hg, (1, 1), hg, le_of_eq hz.symm, Relation.ReflTransGen.refl⟩

/-- C7 (amended): a flat input produces no edges for every valid
threshold pair whose upper threshold is positive: an all-zero magnitude
raster has an all-zero suppressed output and an all-false edge raster,
and the uniform 10×10 raster of value 128 has zero gradient magnitude
everywhere and an all-false final edge raster.  (At `T_high = 0` the
spec's own degenerate rule makes every pixel STRONG, so positivity is
required.) -/
theorem flat_input_no_edges (M : Raster ℝ) (D : Raster Sector)
    (tlo thi : ℝ) (hz : ∀ i j, M.data i j = 0) (_h0 : 0 ≤ tlo)
    (_hTT : tlo ≤ thi) (hpos : 0 < thi) :
    (∀ i j, (suppress M D).data i j = 0)
    ∧ (∀ i j, ¬ (edges (suppress M D) tlo thi).data i j)
    ∧ (∀ i j, (magnitude uniform10).data i j = 0)
    ∧ (∀ i j, ¬ (edges (suppress (magnitude uniform10) (sectors uniform10))
        tlo thi).data i j) :=
  ⟨suppress_of_zero M D hz,
    edges_of_zero (suppress M D) tlo thi (suppress_of_zero M D hz) hpos,
    magnitude_uniform10,
    edges_of_zero _ tlo thi
      (suppress_of_zero (magnitude uniform10) (sectors uniform10)
        magnitude_uniform10) hpos⟩

/-- The amended flat-input property applied to the concrete all-zero 3×3
raster `Z3` with the valid pair `(0, 1)` at pixel `(1, 1)`. -/
theorem flat_input_no_edges_witness :
    (0 : ℝ) ≤ 0 ∧ (0 : ℝ) ≤ 1 ∧ (0 : ℝ) < 1 ∧
    ¬ (edges (suppress Z3 D0) (0 : ℝ) (1 : ℝ)).data 1 1 :=
  ⟨le_refl 0, by norm_num, by norm_num,
    (flat_input_no_edges Z3 D0 0 1 (fun _ _ => rfl) (le_refl 0)
      (by norm_num) (by norm_num)).2.1 1 1⟩

/-- C3: the pipeline validates its configuration eagerly and, being a
pure function, produces no partial output: it fails with
`invalidKernelSize` when the kernel size is even or less than 3, with
`invalidThresholds` when (the kernel size being acceptable)
`T_low > T_high` or either threshold is negative, and otherwise returns
the edge raster — no other failure mode exists. -/
theorem canny_config_validation (I : Raster ℝ) (k : ℕ) (tlo thi : ℝ) :
    (k % 2 = 0 ∨ k < 3 →
      canny I k tlo thi = Except.error ConfigError.invalidKernelSize)
    ∧ (¬(k % 2 = 0 ∨ k < 3) → (thi < tlo ∨ tlo < 0 ∨ thi < 0) →
      canny I k tlo thi = Except.error ConfigError.invalidThresholds)
    ∧ (¬(k % 2 = 0 ∨ k < 3) → ¬(thi < tlo ∨ tlo < 0 ∨ thi < 0) →
      canny I k tlo thi =
        Except.ok (edges (suppress (magnitude I) (sectors I)) tlo thi)) := by
  refine ⟨fun hk => ?_, fun hk ht => ?_, fun hk ht => ?_⟩
  · rw [canny, if_pos hk]
  · rw [canny, if_neg hk, if_pos ht]
  · rw [canny, if_neg hk, if_neg ht]

/-- The configuration validation applied at concrete configurations: an
even kernel, a misordered threshold pair, and a fully valid
configuration on the raster `Z3`. -/
theorem canny_config_validation_witness :
    canny Z3 4 0 1 = Except.error ConfigError.invalidKernelSize
    ∧ canny Z3 3 2 1 = Except.error ConfigError.invalidThresholds
    ∧ canny Z3 3 0 1 =
      Except.ok (edges (suppress (magnitude Z3) (sectors Z3)) 0 1) :=
  ⟨(canny_config_validation Z3 4 0 1).1 (Or.inl rfl),
    (canny_config_validation Z3 3 2 1).2.1 (by norm_num)
      (Or.inl (by norm_num)),
    (canny_config_validation Z3 3 0 1).2.2 (by norm_num) (by norm_num)⟩

end Canny

namespace Notebook

/-- C9: `gaussian_smoothing` raises a runtime error on every input and
never returns the documented blurred-and-normalized image (its 1D kernel
is `None` placeholders and the arguments it passes to `convolve2d`,
`filter2D` and `normalize` are `None`), so the smoothed branches make
`laplace_testing` and `canny_testing` fail on every call as well. -/
theorem gaussian_smoothing_always_raises {Mat : Type}
    (conv : Mat → Mat → Mat) (filt : Mat → ℤ → Mat → Mat)
    (normImpl : Mat → ℚ → ℚ → Mat) (lap : Mat → ℤ → ℤ → Mat)
    (cny : Mat → ℚ → ℚ → Mat) (image : Option Mat)
    (size_Laplacian : Option ℤ) (lower upper sigma : Option ℚ)
    (w_kernel w_gaussian : Option ℤ) :
    (∃ e, gaussian_smoothing conv filt normImpl image sigma w_kernel =
      Except.error e)
    ∧ laplace_testing conv filt normImpl lap image size_Laplacian sigma
        w_gaussian = Except.error PyError.typeError
    ∧ canny_testing conv filt normImpl cny image lower upper sigma
        w_gaussian = Except.error PyError.typeError := by
  refine ⟨?_, rfl, rfl⟩
  cases w_kernel with
  | none => exact ⟨PyError.typeError, rfl⟩
  | some w => exact ⟨PyError.valueError, rfl⟩

/-- C10 (counterexample to the claim as stated): at a concrete input
(matrices modelled by `Unit`, trivial library implementations, all
arguments `None`)
`canny_testing` does not return Python's `None` (`Except.ok ()`): it
raises a `TypeError` from the `gaussian_smoothing(None, None, None)`
call. -/
theorem canny_testing_counterexample :
    canny_testing (fun (_ _ : Unit) => ()) (fun _ _ _ => ())
        (fun _ _ _ => ()) (fun _ _ _ => ()) none none none none none =
      Except.error PyError.typeError
    ∧ (Except.error PyError.typeError : Except PyError Unit) ≠
      Except.ok () :=
  ⟨rfl, fun h => Except.noConfusion h⟩

/-- C10 (amended): for every input, `canny_testing` never yields a value
to its caller: it raises a `TypeError` (propagated from the
`gaussian_smoothing` stub it calls with `None` arguments) before reaching
its plotting code — and since it contains no return statement, even a
successful run could only return `None`, never a binary edge raster. -/
theorem canny_testing_never_returns {Mat : Type} (conv : Mat → Mat → Mat)
    (filt : Mat → ℤ → Mat → Mat) (normImpl : Mat → ℚ → ℚ → Mat)
    (cny : Mat → ℚ → ℚ → Mat) (image : Option Mat)
    (lower upper sigma : Option ℚ) (w_gaussian : Option ℤ) :
    canny_testing conv filt normImpl cny image lower upper sigma
      w_gaussian = Except.error PyError.typeError := rfl

end Notebook
